import Mathlib

/-!
Shallow embedding of the ticket-relay and moderation core of `src/main.py`
(a Telegram support bot with a local SQLite store).

Conventions of the embedding:
* timestamps are integers (seconds); `datetime.now()` becomes a `now : Int`
  parameter, and ISO-8601 string comparison in the source is order-isomorphic
  to integer comparison;
* a user row of the `users` table is a `UserRec`;
* the database is a `List UserRec` for the claims that involve several rows;
* transport (Telegram API) effects are recorded as explicit event lists or
  summarised by outcome functions (`Nat → Option ExcKind`), mirroring the
  exception kinds the source catches.
-/

/-- Row of the `users` table (src/main.py, lines 96-109).  `topic_id` is the
thread mapping (SQL column `topic_id INTEGER UNIQUE`); `ban_until` is the
absolute expiry timestamp (`None` plus `is_banned` means a permanent ban). -/
structure UserRec where
  user_id : Nat
  anon_id : String
  topic_id : Option Nat
  referrer_id : Option Nat
  warns : Nat
  is_banned : Bool
  ban_until : Option Int
  ban_reason : Option String
  is_active : Bool
  msg_count : Nat
  deriving Repr, DecidableEq

/-- Python `str.lower` restricted to the alphabets the bot actually meets:
ASCII letters and the basic Cyrillic block (enough for the literal
"перманентно" and the `d`/`h`/`m`/`s` unit letters). -/
def lowerChar (c : Char) : Char :=
  if 'A' ≤ c && c ≤ 'Z' then Char.ofNat (c.toNat + 32)
  else if 'А' ≤ c && c ≤ 'Я' then Char.ofNat (c.toNat + 32)
  else if c = 'Ё' then Char.ofNat 0x451
  else c

/-- The `multipliers` dict of `parse_time` (src/main.py, lines 650-655). -/
def unitSeconds (c : Char) : Option Nat :=
  if c = 'd' then some 86400
  else if c = 'h' then some 3600
  else if c = 'm' then some 60
  else if c = 's' then some 1
  else none

/-- One iteration of the character loop of `parse_time` (src/main.py,
lines 660-668).  The running state is `(total_seconds, num)` where `num`
models the digit-accumulator string: `none` is the empty string (falsy in
`if num:`).  A character that is neither a digit nor a unit aborts the whole
parse (`return None`), modelled by the `none` state being absorbing. -/
def parseStep (st : Option (Nat × Option Nat)) (c : Char) : Option (Nat × Option Nat) :=
  match st with
  | none => none
  | some (total, num) =>
    if c.isDigit then some (total, some (10 * num.getD 0 + (c.toNat - 48)))
    else
      match unitSeconds c with
      | some m =>
        match num with
        | some v => some (total + v * m, none)
        | none => some (total, none)
      | none => none

/-- `parse_time` (src/main.py, lines 644-670).  Returns the parsed duration
in seconds.  `none` stands for Python `None`, which the source returns BOTH
for the literal permanent token "перманентно" and for a parse failure; a
digit run left in `num` when the loop ends is silently discarded. -/
def parse_time (s : String) : Option Nat :=
  let t := String.mk (s.data.map lowerChar)
  if t = "перманентно" then none
  else
    match t.data.foldl parseStep (some (0, none)) with
    | none => none
    | some (total, _) => some total

/-- `format_timedelta` (src/main.py, lines 673-690): human-readable duration,
days/hours/minutes with zero components omitted, "0м" when everything is
zero, "навсегда" for Python `None`. -/
def format_timedelta (td : Option Nat) : String :=
  match td with
  | none => "навсегда"
  | some total =>
    let days := total / 86400
    let hours := total % 86400 / 3600
    let minutes := total % 3600 / 60
    let parts :=
      (if days > 0 then [toString days ++ "д"] else []) ++
      (if hours > 0 then [toString hours ++ "ч"] else []) ++
      (if minutes > 0 then [toString minutes ++ "м"] else [])
    if parts.isEmpty then "0м" else String.intercalate " " parts

/-- `DatabaseManager.update_user_ban` (src/main.py, lines 461-468): writes
the three ban columns of one user row. -/
def update_user_ban (u : UserRec) (isBanned : Bool) (banUntil : Option Int)
    (banReason : Option String) : UserRec :=
  { u with is_banned := isBanned, ban_until := banUntil, ban_reason := banReason }

/-- The mutation performed by the `/ban` handler `adm_ban` (src/main.py,
lines 1798-1807) on the resolved target user: `parse_time` returning `None`
(permanent token OR unparseable token) yields `ban_until = None`, otherwise
`ban_until = now + duration`; either way the ban is written. -/
def adm_ban (now : Int) (time_str reason : String) (u : UserRec) : UserRec :=
  match parse_time time_str with
  | none => update_user_ban u true none (some reason)
  | some secs => update_user_ban u true (some (now + (secs : Int))) (some reason)

/-- Ban lift performed by the guard when a timed ban has expired
(src/main.py, line 544): `update_user_ban(uid, False, None, None)`. -/
def lift_ban (u : UserRec) : UserRec :=
  update_user_ban u false none none

/-- Observable outcome of `GuardMiddleware.__call__` for a private-chat
message (src/main.py, lines 539-561): either the handler is invoked (with
the possibly ban-lifted user row), or the event is answered with a
time-remaining notice carrying floor-divided whole hours and minutes, or
with the permanent-ban notice. -/
inductive GuardOutcome
  | proceed (u : UserRec)
  | rejectTimed (hours minutes : Nat)
  | rejectPermanent
  deriving Repr, DecidableEq

/-- `GuardMiddleware` ban logic (src/main.py, lines 539-561), applied to the
registered user row.  `remaining.total_seconds() // 3600` and
`(remaining.total_seconds() % 3600) // 60` become natural floor division. -/
def guardMiddleware (now : Int) (u : UserRec) : GuardOutcome :=
  if u.is_banned then
    match u.ban_until with
    | some t =>
      if t < now then .proceed (lift_ban u)
      else
        let remaining := (t - now).toNat
        .rejectTimed (remaining / 3600) (remaining % 3600 / 60)
    | none => .rejectPermanent
  else .proceed u

/-- Row of the `warns_history` table (src/main.py, lines 126-132). -/
structure WarnEntry where
  user_id : Nat
  admin_id : Nat
  reason : Option String
  created_at : Int
  deriving Repr, DecidableEq

/-- `DatabaseManager.add_warn` (src/main.py, lines 263-305): atomically
increments `warns`, appends a `warns_history` row, and returns the new
count.  State is the user row plus the history table. -/
def add_warn (admin_id : Nat) (reason : Option String) (now : Int)
    (s : UserRec × List WarnEntry) : (UserRec × List WarnEntry) × Nat :=
  let u := { s.1 with warns := s.1.warns + 1 }
  ((u, s.2 ++ [{ user_id := s.1.user_id, admin_id := admin_id,
                 reason := reason, created_at := now }]), u.warns)

/-- The `/warn` handler `adm_warn` (src/main.py, lines 1722-1768) acting on
the resolved target.  After `add_warn` commits the increment (line 1748)
the handler performs two unguarded awaits — `message.answer` of the admin
confirmation (line 1754) and `bot.send_message` of the user notification
(line 1762) — BEFORE the threshold check (line 1764).  There is no
try/except in the handler, so if either send raises (e.g.
`TelegramForbiddenError` when the warned user blocked the bot) the handler
aborts there: the increment is already durable and `update_user_ban`
(line 1765) never runs.  `ansOk` / `ntfOk` are the outcomes of those two
sends (if the first raises the second is never attempted, which is
state-equivalent to both failing).  The sends after the ban write
(lines 1766-1767) cannot affect state and are not modelled. -/
def adm_warn (admin_id : Nat) (reason : Option String) (now : Int)
    (ansOk ntfOk : Bool)
    (s : UserRec × List WarnEntry) : UserRec × List WarnEntry :=
  let r := add_warn admin_id reason now s
  if ansOk && ntfOk then
    if 3 ≤ r.2 then
      (update_user_ban r.1.1 true none (some "3 предупреждения"), r.1.2)
    else r.1
  else r.1

/-- User-initiated events the dispatcher can receive: a private/non-private
chat message, or a callback query (inline-button press). -/
inductive Event
  | message (u : UserRec) (chatPrivate : Bool)
  | callbackQuery (u : UserRec)
  deriving Repr, DecidableEq

/-- Whether a handler body runs for an inbound event, per the registrations
in src/main.py: `dp.message.middleware(GuardMiddleware())` (line 1124)
attaches the guard to MESSAGE events only (and the middleware itself passes
non-private chats straight through, line 533); callback-query handlers such
as `process_cat_callback` (line 1190) have no middleware and no ban check of
their own, so they are dispatched directly. -/
def handler_runs (now : Int) : Event → Bool
  | .message u priv =>
    if priv then
      match guardMiddleware now u with
      | .proceed _ => true
      | _ => false
    else true
  | .callbackQuery _ => true

/-- The exception kinds `confirm_broadcast` distinguishes (src/main.py,
lines 1577-1588): `TelegramForbiddenError`, `TelegramRetryAfter(retry_after)`,
and the catch-all `except Exception`. -/
inductive ExcKind
  | forbidden
  | retryAfter (secs : Nat)
  | otherErr
  deriving Repr, DecidableEq

/-- Mutable state of the broadcast loop in `confirm_broadcast` (src/main.py,
lines 1557-1588): the two counters, the users marked `is_active = 0`, and
the `asyncio.sleep(retry_after)` suspensions performed (in order). -/
structure BroadcastState where
  success : Nat
  failed : Nat
  inactivated : List Nat
  sleeps : List Nat
  deriving Repr, DecidableEq

/-- The `try` block of one broadcast iteration (src/main.py, lines 1565-1575):
send to the user; on success increment `success` and, every 10th index, edit
the progress message — an edit failure raises from INSIDE the same `try`.
Returns (success-was-incremented, escaped exception). -/
def try_body (send edit : Nat → Option ExcKind) (index uid : Nat) :
    Bool × Option ExcKind :=
  match send uid with
  | some e => (false, some e)
  | none =>
    if index % 10 = 0 then
      match edit index with
      | some e => (true, some e)
      | none => (true, none)
    else (true, none)

/-- One full iteration of the broadcast loop with its `except` clauses
(src/main.py, lines 1564-1588): Forbidden marks the current uid inactive and
counts a failure; RetryAfter sleeps for `retry_after` — the source's
`index -= 1` rebinds the local loop variable of a Python `for` over
`enumerate`, which the next iteration overwrites, so it has no effect and is
omitted; any other exception counts a failure. -/
def broadcast_step (send edit : Nat → Option ExcKind) (st : BroadcastState)
    (index uid : Nat) : BroadcastState :=
  let r := try_body send edit index uid
  let st1 := if r.1 then { st with success := st.success + 1 } else st
  match r.2 with
  | none => st1
  | some .forbidden =>
    { st1 with inactivated := st1.inactivated ++ [uid], failed := st1.failed + 1 }
  | some (.retryAfter n) => { st1 with sleeps := st1.sleeps ++ [n] }
  | some .otherErr => { st1 with failed := st1.failed + 1 }

/-- The `for index, user_id in enumerate(user_ids, 1)` loop of
`confirm_broadcast` (src/main.py, line 1564). -/
def broadcast_loop (send edit : Nat → Option ExcKind) :
    Nat → List Nat → BroadcastState → BroadcastState
  | _, [], st => st
  | index, uid :: rest, st =>
    broadcast_loop send edit (index + 1) rest (broadcast_step send edit st index uid)

/-- `confirm_broadcast` (src/main.py, lines 1548-1608): iterate the snapshot
of active users starting from index 1 with zeroed counters.  `send uid`
summarises what `copy_message_to_user` raises for that recipient (`none` =
delivered) and `edit index` what `progress_msg.edit_text` raises there. -/
def confirm_broadcast (send edit : Nat → Option ExcKind) (user_ids : List Nat) :
    BroadcastState :=
  broadcast_loop send edit 1 user_ids
    { success := 0, failed := 0, inactivated := [], sleeps := [] }

/-- Deactivations performed by the broadcast loop, applied to the `users`
table: `UPDATE users SET is_active = 0 WHERE user_id = ?` (src/main.py,
lines 1578-1580) for each forbidden recipient. -/
def apply_deactivations (db : List UserRec) (ids : List Nat) : List UserRec :=
  db.map fun u => if u.user_id ∈ ids then { u with is_active := false } else u

/-- `DatabaseManager.close_ticket` (src/main.py, lines 371-387):
`UPDATE users SET topic_id = NULL WHERE user_id = ?`. -/
def close_ticket (uid : Nat) (db : List UserRec) : List UserRec :=
  db.map fun u => if u.user_id = uid then { u with topic_id := none } else u

/-- The thread-mapping write inside `init_ticket` (src/main.py, lines
728-731): `UPDATE users SET topic_id = ? WHERE user_id = ?`. -/
def set_topic (uid tid : Nat) (db : List UserRec) : List UserRec :=
  db.map fun u => if u.user_id = uid then { u with topic_id := some tid } else u

/-- `DatabaseManager.get_user(uid=...)` (src/main.py, lines 253-256). -/
def get_user_by_uid (uid : Nat) (db : List UserRec) : Option UserRec :=
  db.find? fun u => u.user_id = uid

/-- `DatabaseManager.get_user(tid=...)` (src/main.py, lines 257-260). -/
def get_user_by_tid (tid : Nat) (db : List UserRec) : Option UserRec :=
  db.find? fun u => u.topic_id = some tid

/-- The `topic_id INTEGER UNIQUE` constraint of the `users` table
(src/main.py, line 99): two distinct rows never share a present thread id. -/
def TopicUnique (db : List UserRec) : Prop :=
  db.Pairwise fun a b => a.topic_id = none ∨ b.topic_id = none ∨ a.topic_id ≠ b.topic_id

/-- Transport calls `init_ticket` makes into the admin group, in order. -/
inductive TransportEv
  | closure_notice (thread : Nat)
  | create_topic (title : String)
  | ticket_card (thread : Nat)
  deriving Repr, DecidableEq

/-- `init_ticket` (src/main.py, lines 694-768) over the whole `users` table.
If the user already has a topic the closure notice is sent into it (a send
failure is swallowed, the attempt is still recorded) and the mapping is
cleared via `close_ticket`; then `bot.create_forum_topic` runs —
`createResult` is its outcome (`none` = the outer `except` path returning
`None`) — and on success the new topic id is persisted and the ticket card
posted.  Returns (new table, transport events, returned topic id). -/
def init_ticket (uid : Nat) (category : String) (createResult : Option Nat)
    (db : List UserRec) : List UserRec × List TransportEv × Option Nat :=
  match get_user_by_uid uid db with
  | none => (db, [], none)
  | some user =>
    let closeEvs : List TransportEv :=
      match user.topic_id with
      | some old => [.closure_notice old]
      | none => []
    let db1 := match user.topic_id with
      | some _ => close_ticket uid db
      | none => db
    match createResult with
    | none => (db1, closeEvs, none)
    | some newTid =>
      (set_topic uid newTid db1,
       closeEvs ++ [.create_topic (category ++ " | " ++ user.anon_id),
                    .ticket_card newTid],
       some newTid)

/-- C1: the claim says a duration token that is neither the permanent
literal nor grammatical (e.g. "soon") makes the ban command reject and leave
`is_banned`, `ban_until`, `ban_reason` unchanged.  False: `parse_time`
returns `None` for "soon" exactly as for "перманентно", and `adm_ban` maps
`None` to a permanent ban, so an unbanned user becomes permanently banned. -/
theorem c1_invalid_token_changes_state :
    parse_time "soon" = none ∧
    (adm_ban 0 "soon" "Спам"
      { user_id := 1, anon_id := "USER-AAAAA", topic_id := none,
        referrer_id := none, warns := 0, is_banned := false, ban_until := none,
        ban_reason := none, is_active := true, msg_count := 0 }).is_banned = true ∧
    ({ user_id := 1, anon_id := "USER-AAAAA", topic_id := none,
       referrer_id := none, warns := 0, is_banned := false, ban_until := none,
       ban_reason := none, is_active := true, msg_count := 0 } : UserRec).is_banned
      = false := by
  decide

/-- C1 (amended): a duration token on which `parse_time` returns `None` —
the permanent literal and every unparseable token alike — is handled by the
ban command as a permanent ban: `is_banned := true`, `ban_until := None`,
`ban_reason := reason`; the command never rejects an invalid duration. -/
theorem c1_amended_invalid_token_permanent_ban (token reason : String)
    (now : Int) (u : UserRec) (h : parse_time token = none) :
    adm_ban now token reason u = update_user_ban u true none (some reason) := by
  simp [adm_ban, h]

/-- Witness for C1 (amended) at the token "soon". -/
theorem c1_amended_witness :
    parse_time "soon" = none ∧
    adm_ban 0 "soon" "Спам"
      { user_id := 1, anon_id := "USER-AAAAA", topic_id := none,
        referrer_id := none, warns := 0, is_banned := false, ban_until := none,
        ban_reason := none, is_active := true, msg_count := 0 } =
    update_user_ban
      { user_id := 1, anon_id := "USER-AAAAA", topic_id := none,
        referrer_id := none, warns := 0, is_banned := false, ban_until := none,
        ban_reason := none, is_active := true, msg_count := 0 }
      true none (some "Спам") :=
  ⟨by decide,
   c1_amended_invalid_token_permanent_ban "soon" "Спам" 0 _ (by decide)⟩

/-- C2: the claim says the guard filter runs before EVERY user-initiated
action (message or callback), so no action from an unexpired banned user
reaches a handler.  False: the guard is registered as a middleware on
`dp.message` only; callback-query events carry no guard, so a permanently
banned user's button press is dispatched to the handler. -/
theorem c2_callback_bypasses_guard :
    ({ user_id := 2, anon_id := "USER-BBBBB", topic_id := none,
       referrer_id := none, warns := 0, is_banned := true, ban_until := none,
       ban_reason := none, is_active := true, msg_count := 0 } : UserRec).is_banned
      = true ∧
    handler_runs 0
      (Event.callbackQuery
        { user_id := 2, anon_id := "USER-BBBBB", topic_id := none,
          referrer_id := none, warns := 0, is_banned := true, ban_until := none,
          ban_reason := none, is_active := true, msg_count := 0 }) = true := by
  decide

/-- C2 (amended): the guard is evaluated before every private-chat MESSAGE
handler — a banned user whose ban has not expired never reaches a message
handler body — but callback-query events are dispatched without the guard
and can bypass it. -/
theorem c2_amended_message_guard_blocks (now : Int) (u : UserRec)
    (hb : u.is_banned = true) (hx : ∀ t, u.ban_until = some t → ¬t < now) :
    handler_runs now (Event.message u true) = false := by
  unfold handler_runs guardMiddleware
  cases h : u.ban_until with
  | none => simp [hb, h]
  | some t => simp [hb, h, hx t h]

/-- Witness for C2 (amended): a user banned until one hour in the future,
message at time 0. -/
theorem c2_amended_witness :
    handler_runs 0
      (Event.message
        { user_id := 3, anon_id := "USER-CCCCC", topic_id := none,
          referrer_id := none, warns := 0, is_banned := true,
          ban_until := some 3600, ban_reason := none, is_active := true,
          msg_count := 0 } true) = false :=
  c2_amended_message_guard_blocks 0 _ (by decide) (by decide)

/-- C3: the spec (and the dead `index -= 1` at src/main.py line 1585)
intends a rate-limited recipient to be retried after the suspension and
counted once as a success.  The code sleeps for `retry_after` but the
decrement of a Python for-loop variable does not repeat the iteration: over
users 1..100 where user 7 raises RetryAfter(2), the run sleeps 2 seconds,
never retries user 7, and counts it in neither success nor failed
(success 99 + failed 0 ≠ 100 recipients), where the claim demands
success = 100. -/
theorem c3_rate_limited_user_skipped :
    confirm_broadcast (fun u => if u = 7 then some (.retryAfter 2) else none)
      (fun _ => none) (List.range' 1 100) =
    { success := 99, failed := 0, inactivated := [], sleeps := [2] } ∧
    (List.range' 1 100).length = 100 := by
  decide

/-- C6: a Forbidden recipient is marked inactive and counted failed without
aborting the run: over the snapshot 1..100 with user 42 raising Forbidden,
the result is success 99 / failed 1, user 42 is deactivated
(`is_active = false` after applying the loop's UPDATE), and no sleeps. -/
theorem c6_broadcast_forbidden :
    confirm_broadcast (fun u => if u = 42 then some .forbidden else none)
      (fun _ => none) (List.range' 1 100) =
    { success := 99, failed := 1, inactivated := [42], sleeps := [] } ∧
    (apply_deactivations
      [{ user_id := 42, anon_id := "USER-DDDDD", topic_id := none,
         referrer_id := none, warns := 0, is_banned := false, ban_until := none,
         ban_reason := none, is_active := true, msg_count := 0 }]
      (confirm_broadcast (fun u => if u = 42 then some .forbidden else none)
        (fun _ => none) (List.range' 1 100)).inactivated).map UserRec.is_active
      = [false] := by
  decide

/-- C8: guard behaviour on a banned user — an elapsed `ban_until` (strictly
in the past, even by one second) lifts the ban and lets the action proceed;
a future `ban_until` rejects with the remaining time floor-divided into
whole hours and minutes; an absent `ban_until` rejects with the
permanent-ban notice.  The lift really clears the ban fields. -/
theorem c8_guard_ban_expiry (now t : Int) (u : UserRec)
    (hb : u.is_banned = true) :
    (u.ban_until = some t → t < now →
      guardMiddleware now u = GuardOutcome.proceed (lift_ban u) ∧
      (lift_ban u).is_banned = false ∧ (lift_ban u).ban_until = none) ∧
    (u.ban_until = some t → now < t →
      guardMiddleware now u =
        GuardOutcome.rejectTimed ((t - now).toNat / 3600)
          ((t - now).toNat % 3600 / 60)) ∧
    (u.ban_until = none → guardMiddleware now u = GuardOutcome.rejectPermanent) := by
  refine ⟨fun h hlt => ?_, fun h hgt => ?_, fun h => ?_⟩
  · simp [guardMiddleware, hb, h, hlt, lift_ban, update_user_ban]
  · simp [guardMiddleware, hb, h, not_lt.mpr (le_of_lt hgt)]
  · simp [guardMiddleware, hb, h]

/-- Witness for C8: a ban expired 1 second ago is lifted and proceeds; a ban
1 hour in the future reports 1 whole hour and 0 minutes remaining. -/
theorem c8_guard_ban_expiry_witness :
    guardMiddleware 1000
      { user_id := 4, anon_id := "USER-EEEEE", topic_id := none,
        referrer_id := none, warns := 0, is_banned := true,
        ban_until := some 999, ban_reason := none, is_active := true,
        msg_count := 0 } =
      GuardOutcome.proceed (lift_ban
        { user_id := 4, anon_id := "USER-EEEEE", topic_id := none,
          referrer_id := none, warns := 0, is_banned := true,
          ban_until := some 999, ban_reason := none, is_active := true,
          msg_count := 0 }) ∧
    guardMiddleware 0
      { user_id := 5, anon_id := "USER-FFFFF", topic_id := none,
        referrer_id := none, warns := 0, is_banned := true,
        ban_until := some 3600, ban_reason := none, is_active := true,
        msg_count := 0 } = GuardOutcome.rejectTimed 1 0 := by
  refine ⟨((c8_guard_ban_expiry 1000 999 _ (by decide)).1 (by decide) (by decide)).1, ?_⟩
  have h := (c8_guard_ban_expiry 0 3600
    { user_id := 5, anon_id := "USER-FFFFF", topic_id := none,
      referrer_id := none, warns := 0, is_banned := true,
      ban_until := some 3600, ban_reason := none, is_active := true,
      msg_count := 0 } (by decide)).2.1 (by decide) (by decide)
  simpa using h

/-- C9: the claim says a failure to edit the 10-user progress notification
is ignored — counters unchanged, run not aborted.  False: the edit happens
inside the same `try` as the send, so an edit failure falls into the
catch-all `except Exception` and increments `failed`: over users 1..10 with
all sends delivered and the edit at index 10 raising, the run ends with
failed = 1, not 0. -/
theorem c9_edit_failure_counts_failed :
    confirm_broadcast (fun _ => none)
      (fun i => if i = 10 then some .otherErr else none) (List.range' 1 10) =
    { success := 10, failed := 1, inactivated := [], sleeps := [] } ∧
    (confirm_broadcast (fun _ => none)
      (fun i => if i = 10 then some .otherErr else none)
      (List.range' 1 10)).failed ≠ 0 := by
  decide

/-- C9 (amended): a generic failure to edit the progress notification does
not abort the run — the loop proceeds to the remaining recipients — but it
is caught by the loop's catch-all handler and increments `failed`, the
recipient having already been counted as a success (so that recipient is
counted on both sides). -/
theorem c9_amended_edit_failure (send edit : Nat → Option ExcKind)
    (st : BroadcastState) (index uid : Nat) (rest : List Nat)
    (hs : send uid = none) (hi : index % 10 = 0)
    (he : edit index = some ExcKind.otherErr) :
    broadcast_step send edit st index uid =
      { st with success := st.success + 1, failed := st.failed + 1 } ∧
    broadcast_loop send edit index (uid :: rest) st =
      broadcast_loop send edit (index + 1) rest
        { st with success := st.success + 1, failed := st.failed + 1 } := by
  have hstep : broadcast_step send edit st index uid =
      { st with success := st.success + 1, failed := st.failed + 1 } := by
    simp [broadcast_step, try_body, hs, hi, he]
  exact ⟨hstep, by rw [broadcast_loop, hstep]⟩

/-- Helper: the user-row component of `adm_warn` — one committed increment,
then the threshold ban exactly when both notification sends succeed and the
new count reaches 3; an aborted send leaves only the increment. -/
theorem adm_warn_fst (a : Nat) (r : Option String) (n : Int) (ansOk ntfOk : Bool)
    (s : UserRec × List WarnEntry) :
    (adm_warn a r n ansOk ntfOk s).1 =
      if ansOk && ntfOk then
        (if 3 ≤ s.1.warns + 1 then
          update_user_ban { s.1 with warns := s.1.warns + 1 } true none
            (some "3 предупреждения")
        else { s.1 with warns := s.1.warns + 1 })
      else { s.1 with warns := s.1.warns + 1 } := by
  by_cases hok : (ansOk && ntfOk) = true
  · by_cases h : 3 ≤ s.1.warns + 1 <;> simp [adm_warn, add_warn, hok, h]
  · simp [adm_warn, add_warn, hok]

/-- C4: the claim says the threshold ban lands in the same warn call, so no
reachable state has warn count ≥ 3 with `is_banned = false`, and warning a
fresh user three times always ends banned.  False: two unguarded awaits sit
between the increment (src/main.py line 1748) and the threshold check
(line 1764); when the third warn's user notification raises (e.g. the user
blocked the bot), the handler aborts with the increment committed —
`warns = 3` and `is_banned = false` is reachable. -/
theorem c4_warn_abort_unbanned :
    (adm_warn 9 (some "Спам") 0 true false
      (adm_warn 9 (some "Спам") 0 true true
        (adm_warn 9 (some "Спам") 0 true true
          ({ user_id := 6, anon_id := "USER-GGGGG", topic_id := none,
             referrer_id := none, warns := 0, is_banned := false,
             ban_until := none, ban_reason := none, is_active := true,
             msg_count := 0 }, [])))).1.warns = 3 ∧
    (adm_warn 9 (some "Спам") 0 true false
      (adm_warn 9 (some "Спам") 0 true true
        (adm_warn 9 (some "Спам") 0 true true
          ({ user_id := 6, anon_id := "USER-GGGGG", topic_id := none,
             referrer_id := none, warns := 0, is_banned := false,
             ban_until := none, ban_reason := none, is_active := true,
             msg_count := 0 }, [])))).1.is_banned = false := by
  decide

/-- C4 (amended): when the two notification sends between the increment and
the threshold check do not raise, three warns on a fresh user yield
`warns = 3`, `is_banned = true`, `ban_until = none` in the same call, a
fourth warn is still accepted (`warns = 4`) and leaves every ban field
exactly as the first auto-ban wrote it, and no such untroubled warn call
ends with count ≥ 3 unbanned; but a warn call whose notification send
raises commits only the increment, leaving the ban fields untouched. -/
theorem c4_amended_warn_threshold (admin : Nat) (reason : Option String)
    (now : Int) (u0 : UserRec) (hist : List WarnEntry) (h0 : u0.warns = 0) :
    (adm_warn admin reason now true true
      (adm_warn admin reason now true true
        (adm_warn admin reason now true true (u0, hist)))).1.warns = 3 ∧
    (adm_warn admin reason now true true
      (adm_warn admin reason now true true
        (adm_warn admin reason now true true (u0, hist)))).1.is_banned = true ∧
    (adm_warn admin reason now true true
      (adm_warn admin reason now true true
        (adm_warn admin reason now true true (u0, hist)))).1.ban_until = none ∧
    (adm_warn admin reason now true true (adm_warn admin reason now true true
      (adm_warn admin reason now true true
        (adm_warn admin reason now true true (u0, hist))))).1.warns = 4 ∧
    (adm_warn admin reason now true true (adm_warn admin reason now true true
      (adm_warn admin reason now true true
        (adm_warn admin reason now true true (u0, hist))))).1.is_banned = true ∧
    (adm_warn admin reason now true true (adm_warn admin reason now true true
      (adm_warn admin reason now true true
        (adm_warn admin reason now true true (u0, hist))))).1.ban_until =
      (adm_warn admin reason now true true
        (adm_warn admin reason now true true
          (adm_warn admin reason now true true (u0, hist)))).1.ban_until ∧
    (adm_warn admin reason now true true (adm_warn admin reason now true true
      (adm_warn admin reason now true true
        (adm_warn admin reason now true true (u0, hist))))).1.ban_reason =
      (adm_warn admin reason now true true
        (adm_warn admin reason now true true
          (adm_warn admin reason now true true (u0, hist)))).1.ban_reason ∧
    (∀ s : UserRec × List WarnEntry,
      3 ≤ (adm_warn admin reason now true true s).1.warns →
      (adm_warn admin reason now true true s).1.is_banned = true) ∧
    ∀ (s : UserRec × List WarnEntry) (ansOk ntfOk : Bool),
      (ansOk && ntfOk) = false →
      (adm_warn admin reason now ansOk ntfOk s).1 =
        { s.1 with warns := s.1.warns + 1 } := by
  have g1 : (adm_warn admin reason now true true (u0, hist)).1 =
      { u0 with warns := 1 } := by
    rw [adm_warn_fst]; simp [h0]
  have g2 : (adm_warn admin reason now true true
      (adm_warn admin reason now true true (u0, hist))).1 =
      { u0 with warns := 2 } := by
    rw [adm_warn_fst, g1]; simp
  have g3 : (adm_warn admin reason now true true
      (adm_warn admin reason now true true
        (adm_warn admin reason now true true (u0, hist)))).1 =
      { u0 with
        warns := 3
        is_banned := true
        ban_until := none
        ban_reason := some "3 предупреждения" } := by
    rw [adm_warn_fst, g2]; simp [update_user_ban]
  have g4 : (adm_warn admin reason now true true
      (adm_warn admin reason now true true
        (adm_warn admin reason now true true
          (adm_warn admin reason now true true (u0, hist))))).1 =
      { u0 with
        warns := 4
        is_banned := true
        ban_until := none
        ban_reason := some "3 предупреждения" } := by
    rw [adm_warn_fst, g3]; simp [update_user_ban]
  refine ⟨by rw [g3], by rw [g3], by rw [g3], by rw [g4], by rw [g4],
    by rw [g3, g4], by rw [g3, g4], ?_, ?_⟩
  · intro s hs
    rw [adm_warn_fst] at hs ⊢
    simp only [Bool.and_self] at hs ⊢
    rw [if_pos trivial] at hs ⊢
    by_cases h : 3 ≤ s.1.warns + 1
    · simp [h, update_user_ban]
    · rw [if_neg h] at hs
      simp at hs
      exact absurd hs (by omega)
  · intro s ansOk ntfOk hfail
    rw [adm_warn_fst, hfail]
    simp

/-- Witness for C4 (amended) at a concrete fresh user: three untroubled
warns ban permanently, the fourth changes no ban field, and an aborted warn
call commits only the increment. -/
theorem c4_amended_warn_threshold_witness :
    (adm_warn 9 (some "Спам") 0 true true (adm_warn 9 (some "Спам") 0 true true
      (adm_warn 9 (some "Спам") 0 true true
        ({ user_id := 6, anon_id := "USER-GGGGG", topic_id := none,
           referrer_id := none, warns := 0, is_banned := false,
           ban_until := none, ban_reason := none, is_active := true,
           msg_count := 0 }, [])))).1.warns = 3 ∧
    (adm_warn 9 (some "Спам") 0 true true (adm_warn 9 (some "Спам") 0 true true
      (adm_warn 9 (some "Спам") 0 true true
        ({ user_id := 6, anon_id := "USER-GGGGG", topic_id := none,
           referrer_id := none, warns := 0, is_banned := false,
           ban_until := none, ban_reason := none, is_active := true,
           msg_count := 0 }, [])))).1.is_banned = true ∧
    (adm_warn 9 (some "Спам") 0 true true (adm_warn 9 (some "Спам") 0 true true
      (adm_warn 9 (some "Спам") 0 true true
        ({ user_id := 6, anon_id := "USER-GGGGG", topic_id := none,
           referrer_id := none, warns := 0, is_banned := false,
           ban_until := none, ban_reason := none, is_active := true,
           msg_count := 0 }, [])))).1.ban_until = none ∧
    (adm_warn 9 (some "Спам") 0 true true (adm_warn 9 (some "Спам") 0 true true
      (adm_warn 9 (some "Спам") 0 true true (adm_warn 9 (some "Спам") 0 true true
        ({ user_id := 6, anon_id := "USER-GGGGG", topic_id := none,
           referrer_id := none, warns := 0, is_banned := false,
           ban_until := none, ban_reason := none, is_active := true,
           msg_count := 0 }, []))))).1.warns = 4 ∧
    (adm_warn 9 (some "Спам") 0 true true (adm_warn 9 (some "Спам") 0 true true
      (adm_warn 9 (some "Спам") 0 true true (adm_warn 9 (some "Спам") 0 true true
        ({ user_id := 6, anon_id := "USER-GGGGG", topic_id := none,
           referrer_id := none, warns := 0, is_banned := false,
           ban_until := none, ban_reason := none, is_active := true,
           msg_count := 0 }, []))))).1.is_banned = true ∧
    (adm_warn 9 (some "Спам") 0 true true (adm_warn 9 (some "Спам") 0 true true
      (adm_warn 9 (some "Спам") 0 true true (adm_warn 9 (some "Спам") 0 true true
        ({ user_id := 6, anon_id := "USER-GGGGG", topic_id := none,
           referrer_id := none, warns := 0, is_banned := false,
           ban_until := none, ban_reason := none, is_active := true,
           msg_count := 0 }, []))))).1.ban_until =
      (adm_warn 9 (some "Спам") 0 true true (adm_warn 9 (some "Спам") 0 true true
        (adm_warn 9 (some "Спам") 0 true true
          ({ user_id := 6, anon_id := "USER-GGGGG", topic_id := none,
             referrer_id := none, warns := 0, is_banned := false,
             ban_until := none, ban_reason := none, is_active := true,
             msg_count := 0 }, [])))).1.ban_until ∧
    (adm_warn 9 (some "Спам") 0 true true (adm_warn 9 (some "Спам") 0 true true
      (adm_warn 9 (some "Спам") 0 true true (adm_warn 9 (some "Спам") 0 true true
        ({ user_id := 6, anon_id := "USER-GGGGG", topic_id := none,
           referrer_id := none, warns := 0, is_banned := false,
           ban_until := none, ban_reason := none, is_active := true,
           msg_count := 0 }, []))))).1.ban_reason =
      (adm_warn 9 (some "Спам") 0 true true (adm_warn 9 (some "Спам") 0 true true
        (adm_warn 9 (some "Спам") 0 true true
          ({ user_id := 6, anon_id := "USER-GGGGG", topic_id := none,
             referrer_id := none, warns := 0, is_banned := false,
             ban_until := none, ban_reason := none, is_active := true,
             msg_count := 0 }, [])))).1.ban_reason ∧
    (∀ s : UserRec × List WarnEntry,
      3 ≤ (adm_warn 9 (some "Спам") 0 true true s).1.warns →
      (adm_warn 9 (some "Спам") 0 true true s).1.is_banned = true) ∧
    ∀ (s : UserRec × List WarnEntry) (ansOk ntfOk : Bool),
      (ansOk && ntfOk) = false →
      (adm_warn 9 (some "Спам") 0 ansOk ntfOk s).1 =
        { s.1 with warns := s.1.warns + 1 } :=
  c4_amended_warn_threshold 9 (some "Спам") 0 _ [] rfl

/-- C5: the thread-id mapping stays unique and closing is local — under the
table invariants (unique present `topic_id`, unique primary-key `user_id`)
and a fresh thread id, `close_ticket` preserves uniqueness, leaves every row
of a different user untouched (same position, same contents), and assigning
the fresh id via the `init_ticket` UPDATE preserves uniqueness. -/
theorem c5_topic_uniqueness (uid tid : Nat) (db : List UserRec)
    (hU : TopicUnique db)
    (hPK : db.Pairwise fun a b => a.user_id ≠ b.user_id)
    (hfresh : ∀ v ∈ db, v.topic_id ≠ some tid) :
    TopicUnique (close_ticket uid db) ∧
    (∀ (i : Nat) (u : UserRec), db[i]? = some u → u.user_id ≠ uid →
      (close_ticket uid db)[i]? = some u) ∧
    TopicUnique (set_topic uid tid db) := by
  refine ⟨?_, ?_, ?_⟩
  · unfold TopicUnique close_ticket
    rw [List.pairwise_map]
    refine hU.imp ?_
    intro a b hab
    by_cases ha : a.user_id = uid
    · simp [ha]
    · by_cases hb2 : b.user_id = uid
      · simp [ha, hb2]
      · simpa [ha, hb2] using hab
  · intro i u hget hne
    unfold close_ticket
    rw [List.getElem?_map, hget]
    simp [hne]
  · unfold TopicUnique set_topic
    rw [List.pairwise_map]
    refine (hU.and hPK).imp_of_mem ?_
    intro a b hma hmb hab
    obtain ⟨hab, hne⟩ := hab
    by_cases ha : a.user_id = uid
    · have hb2 : ¬b.user_id = uid := fun hb2 => hne (ha.trans hb2.symm)
      cases hbt : b.topic_id with
      | none => simp [ha, hb2, hbt]
      | some x =>
        have hx : ¬x = tid := fun h => hfresh b hmb (by rw [hbt, h])
        simp [ha, hb2, hbt]
        exact fun h => hx h.symm
    · by_cases hb2 : b.user_id = uid
      · cases hat : a.topic_id with
        | none => simp [ha, hb2, hat]
        | some x =>
          have hx : ¬x = tid := fun h => hfresh a hma (by rw [hat, h])
          simp [ha, hb2, hat]
          exact hx
      · simpa [ha, hb2] using hab

/-- Witness for C5 on a two-row table with live topics 100 and 200, closing
user 1's thread and assigning fresh topic 300. -/
theorem c5_topic_uniqueness_witness :
    TopicUnique (close_ticket 1
      [{ user_id := 1, anon_id := "USER-HHHHH", topic_id := some 100,
         referrer_id := none, warns := 0, is_banned := false, ban_until := none,
         ban_reason := none, is_active := true, msg_count := 0 },
       { user_id := 2, anon_id := "USER-JJJJJ", topic_id := some 200,
         referrer_id := none, warns := 0, is_banned := false, ban_until := none,
         ban_reason := none, is_active := true, msg_count := 0 }]) ∧
    (∀ (i : Nat) (u : UserRec),
      [{ user_id := 1, anon_id := "USER-HHHHH", topic_id := some 100,
         referrer_id := none, warns := 0, is_banned := false, ban_until := none,
         ban_reason := none, is_active := true, msg_count := 0 },
       { user_id := 2, anon_id := "USER-JJJJJ", topic_id := some 200,
         referrer_id := none, warns := 0, is_banned := false, ban_until := none,
         ban_reason := none, is_active := true,
         msg_count := 0 }][i]? = some u → u.user_id ≠ 1 →
      (close_ticket 1
        [{ user_id := 1, anon_id := "USER-HHHHH", topic_id := some 100,
           referrer_id := none, warns := 0, is_banned := false, ban_until := none,
           ban_reason := none, is_active := true, msg_count := 0 },
         { user_id := 2, anon_id := "USER-JJJJJ", topic_id := some 200,
           referrer_id := none, warns := 0, is_banned := false, ban_until := none,
           ban_reason := none, is_active := true, msg_count := 0 }])[i]?
        = some u) ∧
    TopicUnique (set_topic 1 300
      [{ user_id := 1, anon_id := "USER-HHHHH", topic_id := some 100,
         referrer_id := none, warns := 0, is_banned := false, ban_until := none,
         ban_reason := none, is_active := true, msg_count := 0 },
       { user_id := 2, anon_id := "USER-JJJJJ", topic_id := some 200,
         referrer_id := none, warns := 0, is_banned := false, ban_until := none,
         ban_reason := none, is_active := true, msg_count := 0 }]) :=
  c5_topic_uniqueness 1 300 _
    (by unfold TopicUnique; decide) (by decide) (by decide)

/-- Witness for C9 (amended) at index 10, one trailing recipient. -/
theorem c9_amended_edit_failure_witness :
    broadcast_step (fun _ => none)
      (fun i => if i = 10 then some ExcKind.otherErr else none)
      { success := 9, failed := 0, inactivated := [], sleeps := [] } 10 10 =
    { success := 10, failed := 1, inactivated := [], sleeps := [] } :=
  (c9_amended_edit_failure (fun _ => none)
    (fun i => if i = 10 then some ExcKind.otherErr else none)
    { success := 9, failed := 0, inactivated := [], sleeps := [] } 10 10 [11]
    rfl (by decide) (by decide)).1

/-- Helper: a find?-lookup by a field that a row transformation preserves
commutes with mapping the transformation over the table. -/
theorem get_user_by_uid_map (uid : Nat) (db : List UserRec) (f : UserRec → UserRec)
    (hf : ∀ u, (f u).user_id = u.user_id) :
    get_user_by_uid uid (db.map f) = (get_user_by_uid uid db).map f := by
  unfold get_user_by_uid
  rw [List.find?_map]
  have hp : ((fun u : UserRec => decide (u.user_id = uid)) ∘ f)
      = fun u : UserRec => decide (u.user_id = uid) := by
    funext u
    simp [Function.comp, hf]
  rw [hp]

/-- C7: opening a new ticket for a user who already holds thread `old`
first emits the closure notice into `old`, then creates the new thread and
persists `newTid`: the events start with the closure notice, the returned id
is `newTid`, which differs from `old` (thread ids issued by the transport
are fresh), the old thread id no longer resolves to any user, and the
user's row now carries `newTid`. -/
theorem c7_ticket_supersession (uid newTid old : Nat) (category : String)
    (db : List UserRec) (user : UserRec)
    (hfind : get_user_by_uid uid db = some user)
    (hold : user.topic_id = some old)
    (hfresh : ∀ v ∈ db, v.topic_id ≠ some newTid)
    (holdU : ∀ v ∈ db, v.user_id ≠ uid → v.topic_id ≠ some old) :
    (init_ticket uid category (some newTid) db).2.1 =
      [TransportEv.closure_notice old,
       TransportEv.create_topic (category ++ " | " ++ user.anon_id),
       TransportEv.ticket_card newTid] ∧
    (init_ticket uid category (some newTid) db).2.2 = some newTid ∧
    newTid ≠ old ∧
    get_user_by_tid old (init_ticket uid category (some newTid) db).1 = none ∧
    get_user_by_uid uid (init_ticket uid category (some newTid) db).1 =
      some { user with topic_id := some newTid } := by
  have hmem : user ∈ db := List.mem_of_find?_eq_some hfind
  have huid : user.user_id = uid := by
    have := List.find?_some hfind
    simpa using this
  have hne : newTid ≠ old := by
    intro h
    exact hfresh user hmem (by rw [hold, h])
  have hdb1 : (init_ticket uid category (some newTid) db).1 =
      set_topic uid newTid (close_ticket uid db) := by
    simp [init_ticket, hfind, hold]
  refine ⟨by simp [init_ticket, hfind, hold], by simp [init_ticket, hfind, hold],
    hne, ?_, ?_⟩
  · rw [hdb1]
    refine List.find?_eq_none.mpr ?_
    intro v hv
    simp only [set_topic, close_ticket, List.map_map, List.mem_map,
      Function.comp] at hv
    obtain ⟨w, hwmem, rfl⟩ := hv
    by_cases hw : w.user_id = uid
    · simp [hw, hne]
    · have hwo := holdU w hwmem hw
      simp [hw, hwo]
  · rw [hdb1]
    unfold set_topic close_ticket
    rw [get_user_by_uid_map _ _ _ (fun u => by by_cases h : u.user_id = uid <;> simp [h]),
        get_user_by_uid_map _ _ _ (fun u => by by_cases h : u.user_id = uid <;> simp [h]),
        hfind]
    simp [huid]

/-- Witness for C7: user 1 holds thread 100; a fresh thread 300 supersedes
it on a two-row table. -/
theorem c7_ticket_supersession_witness :
    (init_ticket 1 "Общение" (some 300)
      [{ user_id := 1, anon_id := "USER-HHHHH", topic_id := some 100,
         referrer_id := none, warns := 0, is_banned := false, ban_until := none,
         ban_reason := none, is_active := true, msg_count := 0 },
       { user_id := 2, anon_id := "USER-JJJJJ", topic_id := some 200,
         referrer_id := none, warns := 0, is_banned := false, ban_until := none,
         ban_reason := none, is_active := true, msg_count := 0 }]).2.1 =
      [TransportEv.closure_notice 100,
       TransportEv.create_topic ("Общение" ++ " | " ++
         ({ user_id := 1, anon_id := "USER-HHHHH", topic_id := some 100,
            referrer_id := none, warns := 0, is_banned := false,
            ban_until := none, ban_reason := none, is_active := true,
            msg_count := 0 } : UserRec).anon_id),
       TransportEv.ticket_card 300] ∧
    (init_ticket 1 "Общение" (some 300)
      [{ user_id := 1, anon_id := "USER-HHHHH", topic_id := some 100,
         referrer_id := none, warns := 0, is_banned := false, ban_until := none,
         ban_reason := none, is_active := true, msg_count := 0 },
       { user_id := 2, anon_id := "USER-JJJJJ", topic_id := some 200,
         referrer_id := none, warns := 0, is_banned := false, ban_until := none,
         ban_reason := none, is_active := true, msg_count := 0 }]).2.2 =
      some 300 ∧
    (300 : Nat) ≠ 100 ∧
    get_user_by_tid 100
      (init_ticket 1 "Общение" (some 300)
        [{ user_id := 1, anon_id := "USER-HHHHH", topic_id := some 100,
           referrer_id := none, warns := 0, is_banned := false, ban_until := none,
           ban_reason := none, is_active := true, msg_count := 0 },
         { user_id := 2, anon_id := "USER-JJJJJ", topic_id := some 200,
           referrer_id := none, warns := 0, is_banned := false, ban_until := none,
           ban_reason := none, is_active := true, msg_count := 0 }]).1 = none ∧
    get_user_by_uid 1
      (init_ticket 1 "Общение" (some 300)
        [{ user_id := 1, anon_id := "USER-HHHHH", topic_id := some 100,
           referrer_id := none, warns := 0, is_banned := false, ban_until := none,
           ban_reason := none, is_active := true, msg_count := 0 },
         { user_id := 2, anon_id := "USER-JJJJJ", topic_id := some 200,
           referrer_id := none, warns := 0, is_banned := false, ban_until := none,
           ban_reason := none, is_active := true, msg_count := 0 }]).1 =
      some { user_id := 1, anon_id := "USER-HHHHH", topic_id := some 300,
             referrer_id := none, warns := 0, is_banned := false,
             ban_until := none, ban_reason := none, is_active := true,
             msg_count := 0 } :=
  c7_ticket_supersession 1 300 100 "Общение" _ _
    (by decide) (by decide) (by decide) (by decide)

/-- Helper: Python `str.lower` leaves an ASCII digit unchanged. -/
theorem lowerChar_digit (c : Char) (h : c.isDigit = true) : lowerChar c = c := by
  unfold Char.isDigit at h
  rw [Bool.and_eq_true, decide_eq_true_eq, decide_eq_true_eq] at h
  obtain ⟨h1, h2⟩ := h
  have h9 : c ≤ '9' := h2
  have hA : ¬('A' ≤ c) := fun hc => absurd (le_trans hc h9) (by decide)
  have hCy : ¬('А' ≤ c) := fun hc => absurd (le_trans hc h9) (by decide)
  have hYo : ¬(c = 'Ё') := fun hEq => absurd (hEq ▸ h9) (by decide)
  simp [lowerChar, hA, hCy, hYo]

/-- Helper: lowercasing a digit run is the identity. -/
theorem map_lower_digits (d : List Char) (hd : ∀ c ∈ d, c.isDigit = true) :
    d.map lowerChar = d := by
  induction d with
  | nil => rfl
  | cons c cs ih =>
    rw [List.map_cons, lowerChar_digit c (hd c (List.mem_cons_self c cs)),
      ih fun x hx => hd x (List.mem_cons_of_mem c hx)]

/-- Helper: feeding a run of digits into the `parse_time` loop only grows
the digit accumulator — `total_seconds` never changes until a unit letter
arrives. -/
theorem parseStep_digits (ds : List Char) (hd : ∀ c ∈ ds, c.isDigit = true) :
    ∀ (total : Nat) (num : Option Nat),
      ∃ numEnd, ds.foldl parseStep (some (total, num)) = some (total, numEnd) := by
  induction ds with
  | nil => exact fun total num => ⟨num, rfl⟩
  | cons c ds ih =>
    intro total num
    have hc : c.isDigit = true := hd c (List.mem_cons_self c ds)
    have hstep : parseStep (some (total, num)) c =
        some (total, some (10 * num.getD 0 + (c.toNat - 48))) := by
      simp [parseStep, hc]
    rw [List.foldl_cons, hstep]
    exact ih (fun x hx => hd x (List.mem_cons_of_mem c hx)) total _

/-- Helper: no character of the permanent-ban literal is a digit. -/
theorem no_digit_in_permanent :
    ∀ c ∈ ("перманентно" : String).data, c.isDigit = false := by
  decide

/-- Helper: appending a non-empty run of digits to any token that
`parse_time` accepts leaves the parsed value unchanged — the trailing
digits land in the discarded accumulator and contribute zero seconds. -/
theorem parse_time_append_digits (t : String) (v : Nat) (d : List Char)
    (ht : parse_time t = some v) (hne : d ≠ [])
    (hd : ∀ c ∈ d, c.isDigit = true) :
    parse_time (t ++ String.mk d) = some v := by
  have hmap : d.map lowerChar = d := map_lower_digits d hd
  have hdata : (t ++ String.mk d).data.map lowerChar =
      t.data.map lowerChar ++ d := by
    rw [String.data_append]
    show (t.data ++ d).map lowerChar = _
    rw [List.map_append, hmap]
  -- the appended token still is not the permanent literal: it ends in a digit
  have hperm : ¬String.mk ((t ++ String.mk d).data.map lowerChar) = "перманентно" := by
    intro hEq
    obtain ⟨c0, hc0⟩ := List.exists_mem_of_ne_nil d hne
    have hcmem : c0 ∈ (t ++ String.mk d).data.map lowerChar := by
      rw [hdata]
      exact List.mem_append_right _ hc0
    have hcperm : c0 ∈ ("перманентно" : String).data := by
      have := congrArg String.data hEq
      rw [← this]
      exact hcmem
    have := no_digit_in_permanent c0 hcperm
    rw [hd c0 hc0] at this
    exact Bool.noConfusion this
  -- the original token is accepted, so its own lowered form is not the
  -- permanent literal and its loop ends in a `some` state
  unfold parse_time at ht
  by_cases hp : String.mk (t.data.map lowerChar) = "перманентно"
  · rw [if_pos hp] at ht
    exact absurd ht (by simp)
  · rw [if_neg hp] at ht
    cases hfold : (t.data.map lowerChar).foldl parseStep (some (0, none)) with
    | none => rw [hfold] at ht; exact absurd ht (by simp)
    | some st =>
      obtain ⟨total, num⟩ := st
      rw [hfold] at ht
      have hv : total = v := by simpa using ht
      unfold parse_time
      rw [if_neg hperm, hdata, List.foldl_append, hfold]
      obtain ⟨numEnd, hrest⟩ := parseStep_digits d hd total num
      rw [hrest, hv]

/-- C10: a duration token whose trailing digits carry no unit letter is not
rejected: the digits land in the discarded accumulator and contribute zero
(so "1h30" parses as 3600 and "45" as 0 seconds); banning with "45" writes
`ban_until = now + 0 = now`, a zero-length timed ban that the guard lifts at
the user's next action (any strictly later instant), and the zero duration
renders as "0м". -/
theorem c10_trailing_digits_zero (t : String) (v : Nat) (d : List Char)
    (now fut : Int) (u : UserRec) (r : String)
    (ht : parse_time t = some v) (hne : d ≠ [])
    (hd : ∀ c ∈ d, c.isDigit = true) (hlt : now < fut) :
    parse_time (t ++ String.mk d) = some v ∧
    parse_time "45" = some 0 ∧
    parse_time "1h30" = some 3600 ∧
    format_timedelta (some 0) = "0м" ∧
    (adm_ban now "45" r u).ban_until = some now ∧
    (adm_ban now "45" r u).is_banned = true ∧
    guardMiddleware fut (adm_ban now "45" r u) =
      GuardOutcome.proceed (lift_ban (adm_ban now "45" r u)) := by
  have h45 : parse_time "45" = some 0 := by decide
  have hban : adm_ban now "45" r u =
      update_user_ban u true (some now) (some r) := by
    simp [adm_ban, h45]
  refine ⟨parse_time_append_digits t v d ht hne hd, h45, by decide, by decide,
    ?_, ?_, ?_⟩
  · rw [hban]; rfl
  · rw [hban]; rfl
  · rw [hban]
    simp [guardMiddleware, update_user_ban, lift_ban, hlt]

/-- Witness for C10: token "1h" with trailing digits "30", ban at time 0,
next action at time 1. -/
theorem c10_trailing_digits_zero_witness :
    parse_time ("1h" ++ String.mk ['3', '0']) = some 3600 ∧
    parse_time "45" = some 0 ∧
    parse_time "1h30" = some 3600 ∧
    format_timedelta (some 0) = "0м" ∧
    (adm_ban 0 "45" "Спам"
      { user_id := 8, anon_id := "USER-KKKKK", topic_id := none,
        referrer_id := none, warns := 0, is_banned := false, ban_until := none,
        ban_reason := none, is_active := true, msg_count := 0 }).ban_until =
      some 0 ∧
    (adm_ban 0 "45" "Спам"
      { user_id := 8, anon_id := "USER-KKKKK", topic_id := none,
        referrer_id := none, warns := 0, is_banned := false, ban_until := none,
        ban_reason := none, is_active := true, msg_count := 0 }).is_banned
      = true ∧
    guardMiddleware 1
      (adm_ban 0 "45" "Спам"
        { user_id := 8, anon_id := "USER-KKKKK", topic_id := none,
          referrer_id := none, warns := 0, is_banned := false, ban_until := none,
          ban_reason := none, is_active := true, msg_count := 0 }) =
      GuardOutcome.proceed (lift_ban (adm_ban 0 "45" "Спам"
        { user_id := 8, anon_id := "USER-KKKKK", topic_id := none,
          referrer_id := none, warns := 0, is_banned := false, ban_until := none,
          ban_reason := none, is_active := true, msg_count := 0 })) :=
  c10_trailing_digits_zero "1h" 3600 ['3', '0'] 0 1 _ "Спам"
    (by decide) (by decide) (by decide) (by decide)
